import Mathlib

/-!
Verification development for the tokget repository (github.com/i-core/tokget).

The definitions below are a shallow embedding of the Go source:
  - internal/errors (error taxonomy: Kind, Error, New, Wrap, Cause),
  - the parts of the Go standard library package net/url that the program
    relies on (Parse, Query/ParseQuery, URL.String), modelled for the
    byte-oriented ASCII strings the program manipulates,
  - internal/oidc (Login, Logout, extractOIDCError, extractOIDCTokens),
    with the browser interactions (chromedp calls) represented by a
    deterministic oracle record supplying the outcome of each call,
  - internal/chrome (majorVersion, the version gate of ConnectWithContext,
    the event listener of PageLoadWaiterFunc, the navigation-history
    listener of NewNavHistory).
-/

namespace Tokget

/-! ### Error taxonomy (internal/errors) -/

/-- The error kinds declared in internal/errors. `other` is `KindOther` (the
empty string), the default kind of untyped errors. -/
inductive Kind where
  | other
  | endpointMissed
  | endpointInvalid
  | clientIDMissed
  | redirectURIMissed
  | scopesMissed
  | idTokenMissed
  | usernameMissed
  | usernameFieldMissed
  | usernameFieldInvalid
  | passwordFieldMissed
  | passwordFieldInvalid
  | submitButtonMissed
  | submitButtonInvalid
  | errorMessageMissed
  | oidcError
  | loginError
  | timeout
deriving DecidableEq, Repr

/-- The string constant each Kind is declared as in internal/errors. -/
def kindValue : Kind → String
  | .other => ""
  | .endpointMissed => "endpoint_is_missed"
  | .endpointInvalid => "endpoint_is_invalid"
  | .clientIDMissed => "client_id_is_missed"
  | .redirectURIMissed => "redirect_uri_is_missed"
  | .scopesMissed => "scopes_are_missed"
  | .idTokenMissed => "id_token_is_missed"
  | .usernameMissed => "username_is_missed"
  | .usernameFieldMissed => "username_field_selector_is_missed"
  | .usernameFieldInvalid => "username_field_selector_is_invalid"
  | .passwordFieldMissed => "password_field_selector_is_missed"
  | .passwordFieldInvalid => "password_field_selector_is_invalid"
  | .submitButtonMissed => "submit_button_selector_is_missed"
  | .submitButtonInvalid => "submit_button_selector_is_invalid"
  | .errorMessageMissed => "error_message_selector_is_missed"
  | .oidcError => "openid_connect_error"
  | .loginError => "login_error"
  | .timeout => "timeout"

/-- A Go error value as the program sees it.  `external msg` is an error that
is not an instance of the taxonomy type `errors.Error` (for example
`context.Canceled` or a net/url parse error).  `err k m` is
`Error{Kind: k, cause: nil, msg: m}` and `wrapped k m c` is
`Error{Kind: k, cause: c, msg: m}`: the nil-able `cause` field of the Go
struct is split over two constructors so equality and recursion stay
structural. -/
inductive GoError where
  | external (msg : String)
  | err (kind : Kind) (msg : String)
  | wrapped (kind : Kind) (msg : String) (cause : GoError)
deriving DecidableEq, Repr

/-- `errors.New(kind, msg)` with the message already formatted: the variadic
collection loop of `New` stores the kind, leaves the cause nil and records
the formatted message. -/
def errNew (k : Kind) (msg : String) : GoError := GoError.err k msg

/-- `errors.Wrap(err, msg)` = `New(err, msg)`: kind defaults to `KindOther`,
the cause is the wrapped error and the message the formatted string. -/
def wrapErr (cause : GoError) (msg : String) : GoError :=
  GoError.wrapped Kind.other msg cause

/-- The `Error()` rendering: the message alone when the cause is nil,
otherwise `msg ++ ": " ++ cause.Error()`. -/
def errorText : GoError → String
  | .external m => m
  | .err _ m => m
  | .wrapped _ m c => m ++ ": " ++ errorText c

/-- `errors.Cause` applied to a non-nil error: a value that is not an
`*Error` is returned unchanged; for an `*Error` the function recurses into
the cause, and `Cause(nil)` (the type assertion on a nil interface fails,
returning the nil argument) yields nil, modelled as `none`. -/
def goCause : GoError → Option GoError
  | .external m => some (.external m)
  | .err _ _ => none
  | .wrapped _ _ c => goCause c

/-- `errors.Cause` on a possibly-nil error value. -/
def goCauseO : Option GoError → Option GoError
  | none => none
  | some e => goCause e

/-- True when the recursive cause chain of a taxonomy error ends in a nil
cause (rather than in a non-taxonomy error). -/
def endsInNilCause : GoError → Bool
  | .external _ => false
  | .err _ _ => true
  | .wrapped _ _ c => endsInNilCause c

/-! ### Byte-string helpers shared by the net/url model

Go strings are byte strings; the program only manipulates ASCII URLs and
messages, so `String`/`Char` stand in for byte strings and every table below
is the ASCII restriction of the corresponding net/url table. -/

/-- An ASCII letter (a-z, A-Z by code point). -/
def isSchemeLetter (c : Char) : Bool :=
  (97 ≤ c.toNat && c.toNat ≤ 122) || (65 ≤ c.toNat && c.toNat ≤ 90)

/-- An ASCII decimal digit (0-9 by code point). -/
def isDigitChar (c : Char) : Bool := 48 ≤ c.toNat && c.toNat ≤ 57

/-- Value of a hexadecimal digit, as in net/url `unhex` (code points 48-57
are the digits, 97-102 the lowercase and 65-70 the uppercase hex letters). -/
def hexVal (c : Char) : Option Nat :=
  let n := c.toNat
  if 48 ≤ n && n ≤ 57 then some (n - 48)
  else if 97 ≤ n && n ≤ 102 then some (n - 87)
  else if 65 ≤ n && n ≤ 70 then some (n - 55)
  else none

/-- The escaping modes of net/url the program exercises (the `encoding`
enumeration of Go 1.12, without `encodePathSegment`, which no reachable code
path uses). -/
inductive EncMode where
  | path
  | host
  | zone
  | userPassword
  | queryComponent
  | fragment
deriving DecidableEq, Repr

/-- The two modes that share the extended host character set. -/
def isHostMode : EncMode → Bool
  | .host => true
  | .zone => true
  | _ => false

/-- net/url `shouldEscape` (Go 1.12): alphanumerics are never escaped; the
host modes keep their extended set unescaped; the unreserved marks `-_.~`
follow; the reserved set `$&+,/:;=?@` is kept or escaped per mode; fragments
additionally keep `!()*` unescaped; everything else is escaped. -/
def shouldEscape (c : Char) (mode : EncMode) : Bool :=
  if isSchemeLetter c || isDigitChar c then false
  else if isHostMode mode &&
      ['!', '$', '&', Char.ofNat 39, '(', ')', '*', '+', ',', ';', '=',
       ':', '[', ']', '<', '>', '"'].contains c then false
  else if ['-', '_', '.', '~'].contains c then false
  else if ['$', '&', '+', ',', '/', ':', ';', '=', '?', '@'].contains c then
    match mode with
    | .path => c = '?'
    | .userPassword => c = '@' || c = '/' || c = '?' || c = ':'
    | .queryComponent => true
    | .fragment => false
    | .host => true
    | .zone => true
  else if mode = EncMode.fragment && ['!', '(', ')', '*'].contains c then false
  else true

/-- net/url `unescape` (Go 1.12): validates and decodes percent escapes.  A
plus sign becomes a space only in query-component mode.  In host mode a
percent escape of an ASCII byte (first hex digit below 8) other than `%25`
is an `EscapeError`; in zone mode an escape other than `%25` whose byte is
neither a space nor a valid literal host byte is an `EscapeError`; in the
host modes a literal ASCII byte the mode would escape is an
`InvalidHostError`.  `none` is any of these errors. -/
def unescapeList (mode : EncMode) : List Char → Option (List Char)
  | [] => some []
  | '%' :: a :: b :: rest =>
    match hexVal a, hexVal b with
    | some x, some y =>
      if mode = EncMode.host ∧ x < 8 ∧ ¬(a = '2' ∧ b = '5') then none
      else if mode = EncMode.zone ∧ ¬(a = '2' ∧ b = '5') ∧ 16 * x + y ≠ 32 ∧
          shouldEscape (Char.ofNat (16 * x + y)) .host then none
      else (unescapeList mode rest).map (Char.ofNat (16 * x + y) :: ·)
    | _, _ => none
  | '%' :: _ => none
  | '+' :: rest =>
    (unescapeList mode rest).map ((if mode = EncMode.queryComponent then ' ' else '+') :: ·)
  | c :: rest =>
    if isHostMode mode ∧ c.toNat < 128 ∧ shouldEscape c mode = true then none
    else (unescapeList mode rest).map (c :: ·)

def goUnescape (s : String) (mode : EncMode) : Option String :=
  (unescapeList mode s.data).map String.mk

/-- net/url `split(s, c, cutc)` at the first occurrence of `sep`; `none` when
`sep` does not occur.  Other helpers below build the cutc=true and
cutc=false variants from it. -/
def splitCutAux (sep : Char) : List Char → Option (List Char × List Char)
  | [] => none
  | c :: rest =>
    if c = sep then some ([], rest)
    else
      match splitCutAux sep rest with
      | some (a, b) => some (c :: a, b)
      | none => none

/-- `split(s, sep, true)`: the separator is dropped; `(s, "")` when absent. -/
def splitCut (s : String) (sep : Char) : String × String :=
  match splitCutAux sep s.data with
  | some (a, b) => (String.mk a, String.mk b)
  | none => (s, "")

/-- `split(s, sep, false)`: the separator stays with the second component. -/
def splitKeep (s : String) (sep : Char) : String × String :=
  match splitCutAux sep s.data with
  | some (a, b) => (String.mk a, String.mk (sep :: b))
  | none => (s, "")

/-- Split a query string at every ampersand or semicolon (Go 1.12
`parseQuery` uses `strings.IndexAny(key, "&;")`). -/
def splitOnSeps : List Char → List (List Char)
  | [] => [[]]
  | c :: rest =>
    match splitOnSeps rest with
    | [] => [[]]
    | g :: gs => if c = '&' || c = ';' then [] :: g :: gs else (c :: g) :: gs

/-- One `key=value` group of `parseQuery`: split at the first equals sign
(value empty when there is none), then query-unescape both parts; `none` is
the skipped-with-error case. -/
def parsePair (kv : List Char) : Option (String × String) :=
  let p := match splitCutAux '=' kv with
           | some (a, b) => (a, b)
           | none => (kv, [])
  match unescapeList EncMode.queryComponent p.1, unescapeList EncMode.queryComponent p.2 with
  | some k, some v => some (String.mk k, String.mk v)
  | _, _ => none

/-- The loop of net/url `parseQuery`: empty groups are skipped silently, a
group whose key or value fails to unescape is skipped and records an error,
all other groups append their pair in order.  The Bool is whether an error
was recorded. -/
def parseQueryGroups : List (List Char) → List (String × String) × Bool
  | [] => ([], false)
  | g :: rest =>
    let r := parseQueryGroups rest
    if g = [] then r
    else
      match parsePair g with
      | some p => (p :: r.1, r.2)
      | none => (r.1, true)

/-- net/url `ParseQuery`: the ordered key/value pairs and the error flag. -/
def goParseQuery (query : String) : List (String × String) × Bool :=
  parseQueryGroups (splitOnSeps query.data)

/-- `url.Values.Get`: the first value recorded for the key, else empty. -/
def valuesGet (ps : List (String × String)) (key : String) : String :=
  match ps with
  | [] => ""
  | (k, v) :: rest => if k = key then v else valuesGet rest key

/-- `parsedURL.Query().Get(key)`: `Query()` ignores the `ParseQuery` error
and uses whatever pairs parsed. -/
def queryGet (rawQuery key : String) : String :=
  valuesGet (goParseQuery rawQuery).1 key

/-- Character membership in a byte string (`strings.Contains` with a
one-character needle). -/
def hasChar (c : Char) : List Char → Bool
  | [] => false
  | x :: rest => x = c || hasChar c rest

/-- `strings.HasPrefix` over character lists. -/
def listStartsWith : List Char → List Char → Bool
  | [], _ => true
  | _ :: _, [] => false
  | p :: ps, c :: cs => p = c && listStartsWith ps cs

def strStartsWith (s pre : String) : Bool := listStartsWith pre.data s.data

/-- `strings.HasSuffix` with a one-character suffix. -/
def strEndsWithChar (s : String) (c : Char) : Bool :=
  match s.data.getLast? with
  | some x => x = c
  | none => false

def lastIndexOfChar (cs : List Char) (c : Char) : Option Nat :=
  match cs with
  | [] => none
  | x :: rest =>
    match lastIndexOfChar rest c with
    | some i => some (i + 1)
    | none => if x = c then some 0 else none

/-- net/url `stringContainsCTLByte`. -/
def containsCTLByte (s : String) : Bool :=
  s.data.any (fun c => c < ' ' || c = Char.ofNat 127)

def strToLower (s : String) : String := String.mk (s.data.map Char.toLower)

/-- The ASCII portion of `unicode.IsSpace`, used by `strings.TrimSpace`. -/
def goIsSpace (c : Char) : Bool :=
  c = ' ' || c = Char.ofNat 9 || c = Char.ofNat 10 || c = Char.ofNat 11 ||
  c = Char.ofNat 12 || c = Char.ofNat 13 || c.toNat = 133 || c.toNat = 160

/-- `strings.TrimSpace`. -/
def goTrimSpace (s : String) : String :=
  String.mk (((s.data.dropWhile goIsSpace).reverse.dropWhile goIsSpace).reverse)

/-- One character of the `%q` verb of fmt, restricted to the printable ASCII
characters the program prints (strconv.Quote escapes only the backslash and
the double quote among them). -/
def quoteChar (c : Char) : List Char :=
  if c = '"' then ['\\', '"']
  else if c = '\\' then ['\\', '\\']
  else [c]

/-- The `%q` verb of fmt on a printable-ASCII string. -/
def goQuote (s : String) : String :=
  "\"" ++ String.mk (s.data.foldr (fun c acc => quoteChar c ++ acc) []) ++ "\""

/-! ### The net/url URL model (Go 1.12)

`GoURL` carries the fields of `url.URL` the program reads or writes.  As in
Go, `path`, `fragment` and the userinfo are stored decoded while `rawQuery`
stays raw; `rawPath` keeps the encoded path text handed to `setPath` exactly
when it differs from the default re-encoding of the decoded path, as Go
does. -/

/-- `url.Userinfo`: a decoded username and, when a colon separated one in
the authority, a decoded password. -/
structure GoUserinfo where
  username : String
  password : String := ""
  passwordSet : Bool := false
deriving DecidableEq, Repr

structure GoURL where
  scheme : String := ""
  opaqueData : String := ""
  user : Option GoUserinfo := none
  host : String := ""
  path : String := ""
  rawPath : String := ""
  forceQuery : Bool := false
  rawQuery : String := ""
  fragment : String := ""
deriving DecidableEq, Repr

/-- The uppercase hexadecimal digit for `n < 16` (code point 48 + n for the
digits, 55 + n for the letters). -/
def hexUpper (n : Nat) : Char :=
  Char.ofNat (if n < 10 then 48 + n else 55 + n)

/-- net/url `escape` on ASCII text: percent-encode every character the mode
escapes. -/
def escapeList (mode : EncMode) : List Char → List Char
  | [] => []
  | c :: rest =>
    if shouldEscape c mode then
      '%' :: hexUpper (c.toNat % 256 / 16) :: hexUpper (c.toNat % 16) :: escapeList mode rest
    else c :: escapeList mode rest

def goEscape (s : String) (mode : EncMode) : String := String.mk (escapeList mode s.data)

/-- net/url `validOptionalPort`. -/
def validOptionalPort (port : String) : Bool :=
  match port.data with
  | [] => true
  | ':' :: rest => rest.all isDigitChar
  | _ => false

/-- net/url `validUserinfo` character class. -/
def validUserinfoChar (c : Char) : Bool :=
  isSchemeLetter c || isDigitChar c ||
  ['-', '.', '_', ':', '~', '!', '$', '&', Char.ofNat 39, '(', ')', '*',
   '+', ',', ';', '=', '%', '@'].contains c

/-- Index of the first occurrence of the three bytes `%25` (the RFC 6874
zone-identifier introducer `strings.Index(host, "%25")` looks for). -/
def indexOfPercent25 : List Char → Option Nat
  | '%' :: '2' :: '5' :: _ => some 0
  | [] => none
  | _ :: rest => (indexOfPercent25 rest).map (· + 1)

/-- net/url `parseHost` (Go 1.12): a bracketed host needs a closing bracket
and a digits-only optional port, and a `%25` inside the brackets starts a
zone identifier whose three slices are unescaped in host/zone/host mode;
a plain host checks the optional port after its last colon; either way the
host text is validated and decoded in host mode. -/
def parseHost (host : String) : Option String :=
  if strStartsWith host "[" then
    match lastIndexOfChar host.data ']' with
    | none => none
    | some i =>
      if !validOptionalPort (String.mk (host.data.drop (i + 1))) then none
      else
        match indexOfPercent25 (host.data.take i) with
        | some zone =>
          match unescapeList .host (host.data.take zone),
              unescapeList .zone ((host.data.take i).drop zone),
              unescapeList .host (host.data.drop i) with
          | some h1, some h2, some h3 => some (String.mk (h1 ++ h2 ++ h3))
          | _, _, _ => none
        | none => goUnescape host .host
  else
    match lastIndexOfChar host.data ':' with
    | some i =>
      if validOptionalPort (String.mk (host.data.drop i)) then goUnescape host .host
      else none
    | none => goUnescape host .host

/-- net/url `parseAuthority` (Go 1.12): the host after the last at sign is
parsed first; the userinfo before it must be made of valid userinfo
characters and is then decoded — as a whole username when it carries no
colon, else as a username and password split at the first colon. -/
def parseAuthority (authority : String) : Option (Option GoUserinfo × String) :=
  match lastIndexOfChar authority.data '@' with
  | none => (parseHost authority).map (fun h => (none, h))
  | some i =>
    match parseHost (String.mk (authority.data.drop (i + 1))) with
    | none => none
    | some host =>
      let userinfo := String.mk (authority.data.take i)
      if !(userinfo.data.all validUserinfoChar) then none
      else if !(hasChar ':' userinfo.data) then
        match goUnescape userinfo .userPassword with
        | none => none
        | some un => some (some { username := un }, host)
      else
        let up := splitCut userinfo ':'
        match goUnescape up.1 .userPassword, goUnescape up.2 .userPassword with
        | some un, some pw =>
          some (some { username := un, password := pw, passwordSet := true }, host)
        | _, _ => none

/-- The loop of net/url `getscheme`: `acc` holds the consumed characters in
reverse; `none` is the missing-protocol-scheme error. -/
def getSchemeAux (orig : List Char) : List Char → List Char → Option (String × String)
  | _, [] => some ("", String.mk orig)
  | acc, c :: rest =>
    if isSchemeLetter c then getSchemeAux orig (c :: acc) rest
    else if isDigitChar c || c = '+' || c = '-' || c = '.' then
      if acc = [] then some ("", String.mk orig) else getSchemeAux orig (c :: acc) rest
    else if c = ':' then
      if acc = [] then none else some (String.mk acc.reverse, String.mk rest)
    else some ("", String.mk orig)

def getScheme (s : String) : Option (String × String) := getSchemeAux s.data [] s.data

/-- `URL.setPath` (Go 1.12): percent-validate and decode the path; the
encoded text is kept in `rawPath` only when the default re-encoding of the
decoded path differs from it. -/
def setPathOn (u : GoURL) (p : String) : Option GoURL :=
  match goUnescape p .path with
  | none => none
  | some decoded =>
    some { u with path := decoded,
                  rawPath := if goEscape decoded .path = p then "" else p }

/-- net/url `parse(rawurl, viaRequest=false)` (Go 1.12): control-character
check, scheme split, query split (with the lone-trailing-question-mark
ForceQuery case), opaque rootless paths, the colon-in-first-segment check
for schemeless URLs, authority parsing after a double slash, and the path. -/
def goURLParseNoFragment (rawurl : String) : Option GoURL :=
  if containsCTLByte rawurl then none
  else if rawurl = "*" then some { path := "*" }
  else
    match getScheme rawurl with
    | none => none
    | some (scheme0, rest0) =>
      let scheme := strToLower scheme0
      let rqf :=
        if strEndsWithChar rest0 '?' && !(hasChar '?' rest0.data.dropLast) then
          (String.mk rest0.data.dropLast, "", true)
        else
          let rq := splitCut rest0 '?'
          (rq.1, rq.2, false)
      let rest1 := rqf.1
      let base : GoURL := { scheme := scheme, rawQuery := rqf.2.1, forceQuery := rqf.2.2 }
      if !(strStartsWith rest1 "/") then
        if scheme ≠ "" then some { base with opaqueData := rest1 }
        else
          if hasChar ':' ((splitKeep rest1 '/').1).data then none
          else setPathOn base rest1
      else
        if (decide (scheme ≠ "") || !(strStartsWith rest1 "///")) && strStartsWith rest1 "//" then
          let ar := splitKeep (String.mk (rest1.data.drop 2)) '/'
          match parseAuthority ar.1 with
          | none => none
          | some (user, host) => setPathOn { base with user := user, host := host } ar.2
        else setPathOn base rest1

/-- net/url `Parse`: split the fragment off first, parse the rest, then
store the decoded fragment. -/
def goURLParse (rawurl : String) : Option GoURL :=
  let uf := splitCut rawurl '#'
  match goURLParseNoFragment uf.1 with
  | none => none
  | some url =>
    if uf.2 = "" then some url
    else
      match goUnescape uf.2 .fragment with
      | none => none
      | some f => some { url with fragment := f }

/-- net/url `validEncoded` (Go 1.12): every byte is a kept sub-delim, a
square bracket, a percent sign, or a byte the mode leaves unescaped. -/
def validEncoded (cs : List Char) (mode : EncMode) : Bool :=
  cs.all (fun c =>
    if ['!', '$', '&', Char.ofNat 39, '(', ')', '*', '+', ',', ';', '=',
        ':', '@'].contains c then true
    else if c = '[' || c = ']' then true
    else if c = '%' then true
    else !(shouldEscape c mode))

/-- `URL.EscapedPath` (Go 1.12): the retained encoded path when it is a
valid encoding that decodes back to the stored path, the unescaped asterisk
special case, else the default re-encoding of the decoded path. -/
def escapedPath (u : GoURL) : String :=
  if u.rawPath ≠ "" ∧ validEncoded u.rawPath.data .path = true ∧
      goUnescape u.rawPath .path = some u.path then u.rawPath
  else if u.path = "*" then "*"
  else goEscape u.path .path

/-- Does a colon occur in the path before any slash (the `./` disambiguation
of `URL.String`)? -/
def colonBeforeSlash : List Char → Bool
  | [] => false
  | ':' :: _ => true
  | '/' :: _ => false
  | _ :: rest => colonBeforeSlash rest

def queryPart (u : GoURL) : String :=
  if u.forceQuery || u.rawQuery ≠ "" then "?" ++ u.rawQuery else ""

def fragmentPart (u : GoURL) : String :=
  if u.fragment ≠ "" then "#" ++ goEscape u.fragment .fragment else ""

/-- `Userinfo.String`: the username re-escaped in user-password mode,
followed by the re-escaped password after a colon when one was set. -/
def userinfoString (ui : GoUserinfo) : String :=
  goEscape ui.username .userPassword ++
  (if ui.passwordSet then ":" ++ goEscape ui.password .userPassword else "")

/-- `URL.String` (Go 1.12): scheme, then the opaque part or the
authority-and-path form, then query and re-escaped fragment. -/
def urlString (u : GoURL) : String :=
  let schemePart := if u.scheme ≠ "" then u.scheme ++ ":" else ""
  if u.opaqueData ≠ "" then
    schemePart ++ u.opaqueData ++ queryPart u ++ fragmentPart u
  else
    let authPart :=
      if u.scheme ≠ "" || u.host ≠ "" || u.user.isSome then
        (if u.host ≠ "" || u.path ≠ "" || u.user.isSome then "//" else "") ++
        (match u.user with | some ui => userinfoString ui ++ "@" | none => "") ++
        goEscape u.host .host
      else ""
    let p0 := escapedPath u
    let p1 := if p0 ≠ "" && !(strStartsWith p0 "/") && u.host ≠ "" then "/" ++ p0 else p0
    let p2 := if schemePart ++ authPart = "" && colonBeforeSlash p1.data then "./" ++ p1 else p1
    schemePart ++ authPart ++ p2 ++ queryPart u ++ fragmentPart u

/-! ### internal/oidc -/

/-- `oidc.LoginConfig`. -/
structure LoginConfig where
  endpoint : String := ""
  clientID : String := ""
  redirectURI : String := ""
  scopes : String := ""
  username : String := ""
  password : String := ""
  usernameField : String := ""
  passwordField : String := ""
  submitButton : String := ""
  errorMessage : String := ""
deriving DecidableEq, Repr

/-- `oidc.LoginData`. -/
structure LoginData where
  accessToken : String
  idToken : String
deriving DecidableEq, Repr

/-- `oidc.LogoutConfig`. -/
structure LogoutConfig where
  endpoint : String := ""
  idToken : String := ""
deriving DecidableEq, Repr

/-- `oidc.extractOIDCError`: a parse failure of the URL is wrapped; an empty
or absent `error` query parameter yields nil; otherwise an OIDC-kind error
whose message is `error_description`, with a non-empty `error_hint`
appended after a colon and space. -/
def extractOIDCError (u : String) : Option GoError :=
  match goURLParse u with
  | none => some (wrapErr (GoError.external ("invalid URL " ++ goQuote u)) "parse post login url")
  | some parsedURL =>
    if queryGet parsedURL.rawQuery "error" = "" then none
    else
      let msg := queryGet parsedURL.rawQuery "error_description"
      let hint := queryGet parsedURL.rawQuery "error_hint"
      let msg := if hint ≠ "" then msg ++ ": " ++ hint else msg
      some (errNew .oidcError msg)

/-- `oidc.extractOIDCTokens`: parse the URL (failure wrapped), return
no-data when the fragment is empty, parse the fragment as a query (failure
wrapped), then require non-empty `access_token` and `id_token`. -/
def extractOIDCTokens (u : String) : Except GoError (Option LoginData) :=
  match goURLParse u with
  | none => .error (wrapErr (GoError.external ("invalid URL " ++ goQuote u)) "parse post login URL")
  | some parsedURL =>
    if parsedURL.fragment = "" then .ok none
    else
      let qr := goParseQuery parsedURL.fragment
      if qr.2 then
        .error (wrapErr (GoError.external "query escape error")
          "parse the authentication callback\x27s fragment")
      else
        let accessToken := valuesGet qr.1 "access_token"
        if accessToken = "" then
          .error (errNew .other
            "the authentication endpoint does not send an access token in the url\x27s fragment")
        else
          let idToken := valuesGet qr.1 "id_token"
          if idToken = "" then
            .error (errNew .other
              "the authentication endpoint does not send an id token in the url\x27s fragment")
          else .ok (some { accessToken := accessToken, idToken := idToken })

/-- The outcome of every browser interaction one `Login` call performs, in
program order: the oracle record stands for the connected Chrome process.
`lastNavLogin` is what `navHistory.Last()` returns after the navigation to
the login page, `lastNavSubmit` what it returns after the submit wait. -/
structure LoginBrowser where
  connectErr : Option GoError
  navHistoryErr : Option GoError
  navigateErr : Option GoError
  lastNavLogin : String
  loginPageHTML : Except GoError String
  hasElem : String → Except GoError Bool
  sendKeysErr : String → Option GoError
  clickErr : Option GoError
  waitErr : Option GoError
  lastNavSubmit : String
  textOf : String → Except GoError String
  errPageHTML : Except GoError String

/-- Step 1 of `oidc.Login`: the fixed check list (endpoint, client ID,
redirect URI, scopes, username, username field, password field, submit
button, error message — the first empty parameter wins), then the endpoint
parse. -/
def loginValidate (cnf : LoginConfig) : Option GoError :=
  if cnf.endpoint = "" then some (errNew .endpointMissed "OpenID Connect endpoint is missed")
  else if cnf.clientID = "" then some (errNew .clientIDMissed "client ID is missed")
  else if cnf.redirectURI = "" then
    some (errNew .redirectURIMissed "client\x27s redirect uri is missed")
  else if cnf.scopes = "" then some (errNew .scopesMissed "OpenID Connect scopes are missed")
  else if cnf.username = "" then some (errNew .usernameMissed "username is missed")
  else if cnf.usernameField = "" then
    some (errNew .usernameFieldMissed "username field\x27s selector is missed")
  else if cnf.passwordField = "" then
    some (errNew .passwordFieldMissed "password field\x27s selector is missed")
  else if cnf.submitButton = "" then
    some (errNew .submitButtonMissed "submit button\x27s selector is missed")
  else if cnf.errorMessage = "" then
    some (errNew .errorMessageMissed "error message\x27s selector is missed")
  else
    match goURLParse cnf.endpoint with
    | none => some (errNew .endpointInvalid "OpenID Connect endpoint has an invalid value")
    | some _ => none

/-- The `formHasElement` closure of `oidc.Login` step 4. -/
def formHasElement (b : LoginBrowser) (name sel : String) (kind : Kind) : Option GoError :=
  match b.hasElem sel with
  | .error e => some (wrapErr e ("find " ++ name))
  | .ok false => some (errNew kind ("the login form does not contains " ++ name))
  | .ok true => none

/-- Step 5 of `oidc.Login`: the username always, the password only when it
is non-empty. -/
def loginFill (cnf : LoginConfig) (b : LoginBrowser) : Option GoError :=
  match b.sendKeysErr cnf.usernameField with
  | some e => some (wrapErr e "fill the username field")
  | none =>
    if cnf.password ≠ "" then
      match b.sendKeysErr cnf.passwordField with
      | some e => some (wrapErr e "fill the password field")
      | none => none
    else none

/-- Steps 1 through 6 of `oidc.Login` (everything before the outcome
classification): validation, connect, navigation-history setup, navigation
to the login page with its immediate OIDC-error classification, reading the
page content, the three form-element checks, the fill, the click and the
page-load wait.  `none` means the flow reached step 7. -/
def loginPreSubmit (cnf : LoginConfig) (b : LoginBrowser) : Option GoError :=
  match loginValidate cnf with
  | some e => some e
  | none =>
  match b.connectErr with
  | some e => some (wrapErr e "connect to chrome")
  | none =>
  match b.navHistoryErr with
  | some e => some (wrapErr e "initialize navigation history")
  | none =>
  match b.navigateErr with
  | some e => some (wrapErr e "navigate to the login page")
  | none =>
  match extractOIDCError b.lastNavLogin with
  | some e => some e
  | none =>
  match b.loginPageHTML with
  | .error e => some (wrapErr e "get the login page\x27s content")
  | .ok _ =>
  match formHasElement b "the username field" cnf.usernameField .usernameFieldInvalid with
  | some e => some e
  | none =>
  match formHasElement b "the password field" cnf.passwordField .passwordFieldInvalid with
  | some e => some e
  | none =>
  match formHasElement b "the submit button" cnf.submitButton .submitButtonInvalid with
  | some e => some e
  | none =>
  match loginFill cnf b with
  | some e => some e
  | none =>
  match b.clickErr with
  | some e => some (wrapErr e "submit the login form")
  | none =>
  match b.waitErr with
  | some e => some (wrapErr e "wait for submiting the login form")
  | none => none

/-- Step 7 of `oidc.Login`: token extraction from the post-submit URL, then
OIDC-error classification of it, then the error-message selector text
(checked non-empty before trimming, the message being the trimmed text),
then the unexpected-error-page catch-all carrying the page markup. -/
def loginClassify (cnf : LoginConfig) (b : LoginBrowser) (postLoginURL : String) :
    Except GoError LoginData :=
  match extractOIDCTokens postLoginURL with
  | .error e => .error (wrapErr e "extract OpenID Connect tokens")
  | .ok (some loginData) => .ok loginData
  | .ok none =>
    match extractOIDCError postLoginURL with
    | some e => .error e
    | none =>
      match b.textOf cnf.errorMessage with
      | .error e => .error (wrapErr e "find submiting error message")
      | .ok errMsg =>
        if errMsg ≠ "" then .error (errNew .loginError (goTrimSpace errMsg))
        else
          match b.errPageHTML with
          | .error e => .error (wrapErr e "read error page content")
          | .ok errPageContent =>
            .error (errNew .loginError
              ("unexpected error page " ++ goQuote postLoginURL ++ "\n" ++ errPageContent))

/-- `oidc.Login` over the browser oracle. -/
def Login (cnf : LoginConfig) (b : LoginBrowser) : Except GoError LoginData :=
  match loginPreSubmit cnf b with
  | some e => .error e
  | none => loginClassify cnf b b.lastNavSubmit

/-- The browser interactions of one `Logout` call, in program order. -/
structure LogoutBrowser where
  connectErr : Option GoError
  navHistoryErr : Option GoError
  navigateErr : Option GoError
  lastNav : String

/-- `oidc.Logout`: endpoint checks (missing, then unparseable), ID-token
check, connect, navigation-history setup, navigation to the logout page,
then OIDC-error classification of the last recorded URL; nil on success. -/
def Logout (cnf : LogoutConfig) (b : LogoutBrowser) : Option GoError :=
  if cnf.endpoint = "" then some (errNew .endpointMissed "OpenID Connect endpoint is missed")
  else
    match goURLParse cnf.endpoint with
    | none => some (errNew .endpointInvalid "OpenID Connect endpoint has an invalid value")
    | some _ =>
      if cnf.idToken = "" then some (errNew .idTokenMissed "ID token is missed")
      else
        match b.connectErr with
        | some e => some (wrapErr e "connect to chrome")
        | none =>
        match b.navHistoryErr with
        | some e => some (wrapErr e "initialize navigation history")
        | none =>
        match b.navigateErr with
        | some e => some (wrapErr e "navigate to the logout page")
        | none => extractOIDCError b.lastNav

/-! ### internal/chrome -/

/-- The digits value used by `strconv.Atoi` (code point 48 is the zero
digit). -/
def digitsVal (cs : List Char) : Nat :=
  cs.foldl (fun acc c => 10 * acc + (c.toNat - 48)) 0

/-- `strconv.Atoi`: optional sign then at least one digit and nothing else
(the int64 range error of Go is not modelled; the program only compares the
result with 70). -/
def goAtoi (s : String) : Option Int :=
  match s.data with
  | [] => none
  | '+' :: rest =>
    if rest ≠ [] && rest.all isDigitChar then some (digitsVal rest) else none
  | '-' :: rest =>
    if rest ≠ [] && rest.all isDigitChar then some (-(digitsVal rest : Int)) else none
  | l => if l.all isDigitChar then some (digitsVal l) else none

/-- The match of the anchored regular expression of `chrome.majorVersion`
(`(.+)/(.+)` between the anchors): the greedy first group makes the
separator the last slash that leaves a non-empty suffix; `none` when no such
slash exists.  The returned prefix may still be empty, which the caller
rejects. -/
def regexSplitLastSlash : List Char → Option (List Char × List Char)
  | [] => none
  | c :: rest =>
    match regexSplitLastSlash rest with
    | some (a, b) => some (c :: a, b)
    | none => if c = '/' ∧ rest ≠ [] then some ([], rest) else none

/-- `chrome.majorVersion`: the product must match `(.+)/(.+)` anchored on
the whole text (a dot in the pattern does not match a newline, so a newline
anywhere makes the match fail), then the text after the separator is split
on dots and its first part parsed with Atoi. -/
def majorVersion (product : String) : Option Int :=
  let cs := product.data
  if hasChar (Char.ofNat 10) cs then none
  else
    match regexSplitLastSlash cs with
    | none => none
    | some (a, b) =>
      if a = [] then none
      else goAtoi (String.mk (b.takeWhile (fun c => c ≠ '.')))

/-- The browser answers `ConnectWithContext` consumes after the connection
is established: the `browser.GetVersion` outcome and the outcome of
activating the requested protocol domains. -/
structure ChromeConn where
  versionResult : Except GoError String
  domainsErr : Option GoError

/-- The `prepareConn` closure of `chrome.ConnectWithContext`: version query
(failure wrapped), the major-version compatibility gate (unparsable or
below 70 is fatal), then domain activation. -/
def prepareConn (c : ChromeConn) : Option GoError :=
  match c.versionResult with
  | .error e => some (wrapErr e "get Chrome version")
  | .ok product =>
    match majorVersion product with
    | none => some (errNew .other ("invalid Chrome version " ++ goQuote product))
    | some major =>
      if major < 70 then some (errNew .other ("unsupported Chrome version " ++ goQuote product))
      else
        match c.domainsErr with
        | some e => some (wrapErr e "activate CDP domains")
        | none => none

/-- `chrome.ConnectWithContext` after the connection is established: a
session handle (`Unit`) is returned only when `prepareConn` succeeds; on any
failure the connection is cancelled and only the error is returned. -/
def ConnectWithContext (c : ChromeConn) : Except GoError Unit :=
  match prepareConn c with
  | some e => .error e
  | none => .ok ()

/-- The Chrome DevTools Protocol events a `ListenTarget` callback can
receive, collapsed to the cases the listeners distinguish. -/
inductive CdpEvent where
  | loadEventFired
  | loadingFinished
  | loadingFailed
  | otherEvent
deriving DecidableEq, Repr

/-- One delivery step of the `ListenTarget` callback installed by
`chrome.PageLoadWaiterFunc`: once the `stoped` latch is set nothing happens;
a `page.EventLoadEventFired` sets the latch and sends on the channel (the
count); every other event, the network loading events included, is ignored.
The `strict` parameter of the surrounding function does not occur in its
body, so it does not appear here either. -/
def listenStep (stoped : Bool) (ev : CdpEvent) : Bool × Nat :=
  if stoped then (stoped, 0)
  else
    match ev with
    | .loadEventFired => (true, 1)
    | _ => (stoped, 0)

/-- Run the listener over a sequence of events, accumulating the number of
channel sends. -/
def listenRun : Bool → List CdpEvent → Bool × Nat
  | s, [] => (s, 0)
  | s, ev :: rest =>
    let r := listenStep s ev
    let r2 := listenRun r.1 rest
    (r2.1, r.2 + r2.2)

/-- Channel sends produced by one waiter listener over a full event
sequence. -/
def deliveries (evs : List CdpEvent) : Nat := (listenRun false evs).2

/-- The observable non-determinism of one wait-function invocation: the
events the session emits, whether the timeout goroutine fires, and whether
the enclosing context is cancelled. -/
structure WaitEnv where
  events : List CdpEvent
  timeoutFires : Bool
  ctxCancelled : Bool

/-- The cancellation error of the Go context package. -/
def ctxCanceledErr : GoError := GoError.external "context canceled"

/-- The error value the wait function builds on timeout. -/
def timeoutErr : GoError := errNew .timeout "timeout"

/-- Resolution of the wait function returned by
`chrome.PageLoadWaiterFunc(ctx, strict, timeout)`: its select statement can
resolve with nil after a channel send from the listener, with the
timeout-kind error when the timeout goroutine fires (the goroutine exists
only when the timeout is positive), or with the context error when the
context is cancelled.  The `strict` and `timeout` arguments are those of
the Go function; the body uses `strict` nowhere. -/
inductive PageLoadWaitResolves : Bool → Int → WaitEnv → Option GoError → Prop where
  | loaded {strict : Bool} {timeout : Int} {env : WaitEnv} :
      0 < deliveries env.events → PageLoadWaitResolves strict timeout env none
  | timedOut {strict : Bool} {timeout : Int} {env : WaitEnv} :
      env.timeoutFires = true → 0 < timeout →
      PageLoadWaitResolves strict timeout env (some timeoutErr)
  | ctxDone {strict : Bool} {timeout : Int} {env : WaitEnv} :
      env.ctxCancelled = true → PageLoadWaitResolves strict timeout env (some ctxCanceledErr)

/-- One intercepted request as the `NewNavHistory` listener sees it:
`url` is `Request.URL` (the Chrome DevTools Protocol serves it without the
fragment) and `urlFragment` is `Request.URLFragment`, which starts with the
hash delimiter when present. -/
structure InterceptedRequest where
  isNavigationRequest : Bool
  url : String
  urlFragment : String

/-- The `ListenTarget` callback of `chrome.NewNavHistory` on one intercepted
request: non-navigation requests only continue; for a navigation request the
URL is parsed (`none` models the panic on a parse failure), a non-empty
`URLFragment` has its first character — the hash delimiter — dropped and
becomes the fragment of the parsed URL, and the rebuilt URL string is
appended to the entries. -/
def navHistoryStep (entries : List String) (ev : InterceptedRequest) : Option (List String) :=
  if ev.isNavigationRequest then
    match goURLParse ev.url with
    | none => none
    | some rurl =>
      let rurl := if ev.urlFragment ≠ "" then
                    { rurl with fragment := String.mk (ev.urlFragment.data.drop 1) }
                  else rurl
      some (entries ++ [urlString rurl])
  else some entries

/-- `NavHistory.Last`: the most recent entry, or the empty string. -/
def navHistoryLast (entries : List String) : String :=
  match entries.getLast? with
  | none => ""
  | some u => u

/-! ### Helper lemmas -/

instance {ε α : Type} [DecidableEq ε] [DecidableEq α] : DecidableEq (Except ε α) :=
  fun x y =>
    match x, y with
    | .ok a, .ok b =>
      if h : a = b then isTrue (by rw [h]) else isFalse (fun hh => by cases hh; exact h rfl)
    | .ok _, .error _ => isFalse (fun hh => by cases hh)
    | .error _, .ok _ => isFalse (fun hh => by cases hh)
    | .error e, .error f =>
      if h : e = f then isTrue (by rw [h]) else isFalse (fun hh => by cases hh; exact h rfl)

lemma hasChar_append (c : Char) (l1 l2 : List Char) :
    hasChar c (l1 ++ l2) = (hasChar c l1 || hasChar c l2) := by
  induction l1 with
  | nil => simp [hasChar]
  | cons x rest ih => simp [hasChar, ih, Bool.or_assoc]

lemma regexSplitLastSlash_noSlash (cs : List Char) (h : hasChar '/' cs = false) :
    regexSplitLastSlash cs = none := by
  induction cs with
  | nil => rfl
  | cons c rest ih =>
    simp only [hasChar, Bool.or_eq_false_iff, decide_eq_false_iff_not] at h
    simp [regexSplitLastSlash, ih h.2, h.1]

lemma regexSplitLastSlash_append (a b : List Char) (hb : b ≠ [])
    (hbs : hasChar '/' b = false) :
    regexSplitLastSlash (a ++ '/' :: b) = some (a, b) := by
  induction a with
  | nil => simp [regexSplitLastSlash, regexSplitLastSlash_noSlash b hbs, hb]
  | cons c rest ih => simp [regexSplitLastSlash, ih]

lemma listenRun_stopped (evs : List CdpEvent) : listenRun true evs = (true, 0) := by
  induction evs with
  | nil => rfl
  | cons ev rest ih => simp [listenRun, listenStep, ih]

lemma deliveries_cons (ev : CdpEvent) (evs : List CdpEvent) :
    deliveries (ev :: evs) =
      if ev = CdpEvent.loadEventFired then 1 else deliveries evs := by
  cases ev <;> simp [deliveries, listenRun, listenStep, listenRun_stopped]

/-! ### Claim C10 -/

/-- Claim C10: `Cause` applied to a taxonomy error whose recursive cause
chain ends in a nil cause returns nil; in particular `Cause(New(k, m))` is
nil for every kind and message, so such errors never compare equal to a
sentinel cause such as `context.Canceled`. -/
theorem c10_cause_nil :
    (∀ e : GoError, endsInNilCause e = true → goCauseO (some e) = none)
    ∧ (∀ (k : Kind) (m : String), goCauseO (some (errNew k m)) = none)
    ∧ (∀ (k : Kind) (m s : String),
        goCauseO (some (errNew k m)) ≠ some (GoError.external s)) := by
  refine ⟨?_, fun k m => rfl, fun k m s => by simp [goCauseO, errNew, goCause]⟩
  intro e h
  induction e with
  | external m => simp [endsInNilCause] at h
  | err k m => rfl
  | wrapped k m c ih =>
    have hc : goCause c = none := by
      simpa [goCauseO] using ih (by simpa [endsInNilCause] using h)
    simpa [goCauseO, goCause] using hc

/-- Witness for C10 at a two-level chain ending in a nil cause. -/
theorem c10_cause_nil_witness :
    goCauseO (some (GoError.wrapped Kind.other "outer" (errNew Kind.timeout "inner"))) = none :=
  c10_cause_nil.1 (GoError.wrapped Kind.other "outer" (errNew Kind.timeout "inner")) rfl

/-! ### Claim C4 -/

/-- Counterexample to C4 as stated: the claim quantifies over every URL
string, but on a string `url.Parse` rejects (here a lone colon, the
missing-protocol-scheme error) `extractOIDCError` returns a non-nil wrapped
parse error even though the string carries no query component at all, where
the claim requires no error. -/
theorem c4_counterexample :
    extractOIDCError ":" ≠ none
    ∧ extractOIDCError ":" =
        some (GoError.wrapped Kind.other "parse post login url"
          (GoError.external "invalid URL \":\""))
    ∧ hasChar '?' (":").data = false := by
  refine ⟨by decide, by decide, rfl⟩

/-- Claim C4 (amended): for every URL string that `url.Parse` accepts,
`extractOIDCError` returns no error when the parsed query parameter `error`
is empty or absent; when it is non-empty the result is an error of kind
`openid_connect_error` whose message is the `error_description` parameter,
with a colon, a space and the `error_hint` parameter appended when the hint
is non-empty.  A string `url.Parse` rejects yields a non-nil wrapped parse
error instead. -/
theorem c4_extract_oidc_error :
    (∀ (u : String) (url : GoURL), goURLParse u = some url →
      (queryGet url.rawQuery "error" = "" → extractOIDCError u = none)
      ∧ (queryGet url.rawQuery "error" ≠ "" →
          extractOIDCError u =
            some (errNew .oidcError
              (if queryGet url.rawQuery "error_hint" ≠ "" then
                queryGet url.rawQuery "error_description" ++ ": "
                  ++ queryGet url.rawQuery "error_hint"
              else queryGet url.rawQuery "error_description"))))
    ∧ (∀ v : String, goURLParse v = none → ∃ e, extractOIDCError v = some e) := by
  constructor
  · intro u url h
    constructor
    · intro he; simp [extractOIDCError, h, he]
    · intro he; simp [extractOIDCError, h, he]
  · intro v h
    exact ⟨wrapErr (GoError.external ("invalid URL " ++ goQuote v)) "parse post login url",
      by simp [extractOIDCError, h]⟩

/-- Witness for C4 on a provider error URL carrying a hint. -/
theorem c4_extract_oidc_error_witness :
    extractOIDCError "http://x/cb?error=E&error_description=D&error_hint=H" =
      some (errNew .oidcError "D: H") := by
  have h := (c4_extract_oidc_error.1 "http://x/cb?error=E&error_description=D&error_hint=H"
    { scheme := "http", host := "x", path := "/cb",
      rawQuery := "error=E&error_description=D&error_hint=H" } (by decide)).2 (by decide)
  exact h.trans (by decide)

/-! ### Claim C9 -/

/-- Claim C9: `ConnectWithContext` queries the version, parses the major
version by splitting the product on the slash and then on the dot, and
returns an error before returning any session handle whenever the major
version is below 70 or the product does not parse.  The third conjunct
states the split reading of `majorVersion`: on a product of the shape
`a ++ "/" ++ b` with a slash-free, newline-free tail, the result is Atoi of
the text of `b` before its first dot. -/
theorem c9_version_gate :
    (∀ (c : ChromeConn) (product : String), c.versionResult = .ok product →
      majorVersion product = none →
      ConnectWithContext c =
        .error (errNew .other ("invalid Chrome version " ++ goQuote product)))
    ∧ (∀ (c : ChromeConn) (product : String) (m : Int), c.versionResult = .ok product →
      majorVersion product = some m → m < 70 →
      ConnectWithContext c =
        .error (errNew .other ("unsupported Chrome version " ++ goQuote product)))
    ∧ (∀ (a b : List Char), a ≠ [] → b ≠ [] →
      hasChar '/' b = false →
      hasChar (Char.ofNat 10) (a ++ '/' :: b) = false →
      majorVersion (String.mk (a ++ '/' :: b)) =
        goAtoi (String.mk (b.takeWhile (fun c => c ≠ '.')))) := by
  refine ⟨?_, ?_, ?_⟩
  · intro c product hv hm
    simp [ConnectWithContext, prepareConn, hv, hm]
  · intro c product m hv hm hlt
    simp [ConnectWithContext, prepareConn, hv, hm, hlt]
  · intro a b ha hb hbs hnl
    simp [majorVersion, hnl, regexSplitLastSlash_append a b hb hbs, ha]

/-- Witness for C9: a Chrome 69 product is rejected although the browser
answered the version query. -/
theorem c9_version_gate_witness :
    ConnectWithContext { versionResult := .ok "Chrome/69.0.3497.100", domainsErr := none } =
      .error (errNew .other ("unsupported Chrome version " ++ goQuote "Chrome/69.0.3497.100")) :=
  c9_version_gate.2.1 { versionResult := .ok "Chrome/69.0.3497.100", domainsErr := none }
    "Chrome/69.0.3497.100" 69 rfl (by decide) (by decide)

/-! ### Claim C6 -/

/-- Claim C6: the wait function resolves with exactly one of three
outcomes — nil only after a delivery of the load signal, the timeout-kind
error only when the timeout is positive and the timeout fired, or the
context cancellation error when the context was cancelled; the listener
delivers the load signal at most once per waiter, and a delivery happens
exactly when a page-load-finished event occurred. -/
theorem c6_wait_outcomes :
    (∀ (strict : Bool) (timeout : Int) (env : WaitEnv) (o : Option GoError),
      PageLoadWaitResolves strict timeout env o →
        (o = none ∧ 0 < deliveries env.events)
        ∨ (o = some timeoutErr ∧ 0 < timeout ∧ env.timeoutFires = true)
        ∨ (o = some ctxCanceledErr ∧ env.ctxCancelled = true))
    ∧ (∀ evs : List CdpEvent, deliveries evs ≤ 1)
    ∧ (∀ evs : List CdpEvent, 0 < deliveries evs ↔ CdpEvent.loadEventFired ∈ evs) := by
  refine ⟨?_, ?_, ?_⟩
  · intro strict timeout env o h
    cases h with
    | loaded hd => exact Or.inl ⟨rfl, hd⟩
    | timedOut hf ht => exact Or.inr (Or.inl ⟨rfl, ht, hf⟩)
    | ctxDone hc => exact Or.inr (Or.inr ⟨rfl, hc⟩)
  · intro evs
    induction evs with
    | nil => simp [deliveries, listenRun]
    | cons ev rest ih =>
      rw [deliveries_cons]
      split
      · exact le_refl 1
      · exact ih
  · intro evs
    induction evs with
    | nil => simp [deliveries, listenRun]
    | cons ev rest ih =>
      rw [deliveries_cons]
      by_cases hev : ev = CdpEvent.loadEventFired
      · simp [hev]
      · simp only [if_neg hev, ih, List.mem_cons]
        constructor
        · exact Or.inr
        · rintro (h | h)
          · exact absurd h.symm hev
          · exact h

/-- Witness for C6: a single load event resolves the wait with nil. -/
theorem c6_wait_outcomes_witness : 0 < deliveries [CdpEvent.loadEventFired] := by
  have h := c6_wait_outcomes.1 true 5
    { events := [CdpEvent.loadEventFired], timeoutFires := false, ctxCancelled := false }
    none (PageLoadWaitResolves.loaded (by decide))
  rcases h with ⟨_, h2⟩ | ⟨h1, _⟩ | ⟨h1, _⟩
  · exact h2
  · exact absurd h1 (by simp)
  · exact absurd h1 (by simp)

/-! ### Claim C5 -/

/-- Claim C5 concerns a code bug: the `strict` parameter of
`PageLoadWaiterFunc` does not occur in the body of the function, so the
resolution behaviour of the returned wait function is identical for both
values of `strict`, and an event sequence containing only network
loading-failure events never delivers the load signal — for either value of
`strict` a mid-load network failure is neither fatal nor load-completing,
contradicting the documented strict-dependent handling. -/
theorem c5_strict_no_effect :
    (∀ (s1 s2 : Bool) (timeout : Int) (env : WaitEnv) (o : Option GoError),
      PageLoadWaitResolves s1 timeout env o ↔ PageLoadWaitResolves s2 timeout env o)
    ∧ (∀ evs : List CdpEvent, CdpEvent.loadEventFired ∉ evs → deliveries evs = 0)
    ∧ deliveries [CdpEvent.loadingFailed] = 0 := by
  refine ⟨?_, ?_, rfl⟩
  · intro s1 s2 timeout env o
    constructor
    · intro h
      cases h with
      | loaded hd => exact PageLoadWaitResolves.loaded hd
      | timedOut hf ht => exact PageLoadWaitResolves.timedOut hf ht
      | ctxDone hc => exact PageLoadWaitResolves.ctxDone hc
    · intro h
      cases h with
      | loaded hd => exact PageLoadWaitResolves.loaded hd
      | timedOut hf ht => exact PageLoadWaitResolves.timedOut hf ht
      | ctxDone hc => exact PageLoadWaitResolves.ctxDone hc
  · intro evs hm
    induction evs with
    | nil => rfl
    | cons ev rest ih =>
      rw [deliveries_cons]
      rw [List.mem_cons, not_or] at hm
      have hev : ¬ev = CdpEvent.loadEventFired := fun h => hm.1 h.symm
      simp [hev, ih hm.2]

/-- Witness for C5: the Login submit wait (strict = false) ignores a
network loading failure. -/
theorem c5_strict_no_effect_witness : deliveries [CdpEvent.loadingFailed] = 0 :=
  c5_strict_no_effect.2.1 [CdpEvent.loadingFailed] (by decide)

/-! ### Claim C7 -/

/-- Claim C7: a navigation to `http://x/y#abc` is recorded verbatim, with
the leading hash delimiter of the fragment stripped exactly once before the
URL is rebuilt; the rebuild re-encodes as `URL.String` does (a space in the
path of an accepted request URL is recorded `%20`, a percent-decoded
userinfo is re-escaped); entries are only ever appended in arrival order;
and in general a navigation request with a fragment is recorded as the
parsed request URL rebuilt with the fragment text after the delimiter. -/
theorem c7_nav_history_fragment :
    (navHistoryStep []
        { isNavigationRequest := true, url := "http://x/y", urlFragment := "#abc" }
      = some ["http://x/y#abc"])
    ∧ (navHistoryStep []
        { isNavigationRequest := true, url := "http://x/a b", urlFragment := "#t" }
      = some ["http://x/a%20b#t"])
    ∧ (navHistoryStep []
        { isNavigationRequest := true, url := "http://%41@h/", urlFragment := "#t" }
      = some ["http://A@h/#t"])
    ∧ (∀ (entries : List String) (ev : InterceptedRequest) (res : List String),
        navHistoryStep entries ev = some res →
          res = entries ∨ ∃ u, res = entries ++ [u])
    ∧ (∀ (entries : List String) (ev : InterceptedRequest) (res : List String),
        ev.isNavigationRequest = true → ev.urlFragment ≠ "" →
        navHistoryStep entries ev = some res →
          ∃ url, goURLParse ev.url = some url ∧
            res = entries ++
              [urlString { url with fragment := String.mk (ev.urlFragment.data.drop 1) }]) := by
  refine ⟨by decide, by decide, by decide, ?_, ?_⟩
  · intro entries ev res h
    by_cases hn : ev.isNavigationRequest = true
    · rw [navHistoryStep, if_pos hn] at h
      cases hp : goURLParse ev.url with
      | none => rw [hp] at h; cases h
      | some rurl =>
        rw [hp] at h
        dsimp only at h
        refine Or.inr ?_
        by_cases hf : ev.urlFragment ≠ ""
        · rw [if_pos hf] at h
          exact ⟨_, (Option.some_injective _ h).symm⟩
        · rw [if_neg hf] at h
          exact ⟨_, (Option.some_injective _ h).symm⟩
    · rw [navHistoryStep, if_neg hn] at h
      exact Or.inl (Option.some_injective _ h).symm
  · intro entries ev res hn hf h
    rw [navHistoryStep, if_pos hn] at h
    cases hp : goURLParse ev.url with
    | none => rw [hp] at h; cases h
    | some rurl =>
      rw [hp] at h
      dsimp only at h
      rw [if_pos hf] at h
      exact ⟨rurl, rfl, (Option.some_injective _ h).symm⟩

/-- Witness for C7 on the concrete navigation of the claim. -/
theorem c7_nav_history_fragment_witness :
    ∃ url, goURLParse "http://x/y" = some url ∧
      ["old", "http://x/y#abc"] = ["old"] ++
        [urlString { url with fragment := String.mk (("#abc" : String).data.drop 1) }] :=
  c7_nav_history_fragment.2.2.2.2 ["old"]
    { isNavigationRequest := true, url := "http://x/y", urlFragment := "#abc" }
    ["old", "http://x/y#abc"] rfl (by decide) (by decide)

/-! ### Claim C1 -/

/-- Claim C1: for every LoginConfig with at least one empty mandatory
field, `Login` returns the error kind of the first empty field in the fixed
order endpoint, client ID, redirect URI, scopes, username, username-field
selector, password-field selector, submit-button selector, error-message
selector; the result does not depend on any later field, and — since the
browser oracle `b` is arbitrary, an oracle failing on any interaction
included — no browser session is opened and no navigation happens. -/
theorem c1_login_validation (cnf : LoginConfig) (b : LoginBrowser) :
    (cnf.endpoint = "" →
      Login cnf b = .error (errNew .endpointMissed "OpenID Connect endpoint is missed"))
    ∧ (cnf.endpoint ≠ "" → cnf.clientID = "" →
      Login cnf b = .error (errNew .clientIDMissed "client ID is missed"))
    ∧ (cnf.endpoint ≠ "" → cnf.clientID ≠ "" → cnf.redirectURI = "" →
      Login cnf b = .error (errNew .redirectURIMissed "client\x27s redirect uri is missed"))
    ∧ (cnf.endpoint ≠ "" → cnf.clientID ≠ "" → cnf.redirectURI ≠ "" → cnf.scopes = "" →
      Login cnf b = .error (errNew .scopesMissed "OpenID Connect scopes are missed"))
    ∧ (cnf.endpoint ≠ "" → cnf.clientID ≠ "" → cnf.redirectURI ≠ "" → cnf.scopes ≠ "" →
      cnf.username = "" →
      Login cnf b = .error (errNew .usernameMissed "username is missed"))
    ∧ (cnf.endpoint ≠ "" → cnf.clientID ≠ "" → cnf.redirectURI ≠ "" → cnf.scopes ≠ "" →
      cnf.username ≠ "" → cnf.usernameField = "" →
      Login cnf b =
        .error (errNew .usernameFieldMissed "username field\x27s selector is missed"))
    ∧ (cnf.endpoint ≠ "" → cnf.clientID ≠ "" → cnf.redirectURI ≠ "" → cnf.scopes ≠ "" →
      cnf.username ≠ "" → cnf.usernameField ≠ "" → cnf.passwordField = "" →
      Login cnf b =
        .error (errNew .passwordFieldMissed "password field\x27s selector is missed"))
    ∧ (cnf.endpoint ≠ "" → cnf.clientID ≠ "" → cnf.redirectURI ≠ "" → cnf.scopes ≠ "" →
      cnf.username ≠ "" → cnf.usernameField ≠ "" → cnf.passwordField ≠ "" →
      cnf.submitButton = "" →
      Login cnf b =
        .error (errNew .submitButtonMissed "submit button\x27s selector is missed"))
    ∧ (cnf.endpoint ≠ "" → cnf.clientID ≠ "" → cnf.redirectURI ≠ "" → cnf.scopes ≠ "" →
      cnf.username ≠ "" → cnf.usernameField ≠ "" → cnf.passwordField ≠ "" →
      cnf.submitButton ≠ "" → cnf.errorMessage = "" →
      Login cnf b =
        .error (errNew .errorMessageMissed "error message\x27s selector is missed")) := by
  refine ⟨?_, ?_, ?_, ?_, ?_, ?_, ?_, ?_, ?_⟩ <;>
    intros <;> simp_all [Login, loginPreSubmit, loginValidate]

/-- Witness for C1: the empty endpoint wins although every later field is
set and the browser oracle fails on every interaction. -/
theorem c1_login_validation_witness :
    Login
      { endpoint := "", clientID := "c", redirectURI := "r", scopes := "s",
        username := "u", password := "p", usernameField := "#u",
        passwordField := "#p", submitButton := "#s", errorMessage := "#e" }
      { connectErr := some (GoError.external "browser must not be invoked"),
        navHistoryErr := some (GoError.external "browser must not be invoked"),
        navigateErr := some (GoError.external "browser must not be invoked"),
        lastNavLogin := "",
        loginPageHTML := .error (GoError.external "browser must not be invoked"),
        hasElem := fun _ => .error (GoError.external "browser must not be invoked"),
        sendKeysErr := fun _ => some (GoError.external "browser must not be invoked"),
        clickErr := some (GoError.external "browser must not be invoked"),
        waitErr := some (GoError.external "browser must not be invoked"),
        lastNavSubmit := "",
        textOf := fun _ => .error (GoError.external "browser must not be invoked"),
        errPageHTML := .error (GoError.external "browser must not be invoked") }
      = .error (errNew .endpointMissed "OpenID Connect endpoint is missed") :=
  (c1_login_validation _ _).1 rfl

/-! ### Claim C8 -/

/-- Claim C8: `Logout` with an empty endpoint returns the missing-endpoint
kind and with a parseable non-empty endpoint but empty ID token the
missing-ID-token kind, in both cases for every browser oracle (so before
any connection or navigation); after a successful navigation whose last
recorded URL parses with no `error` query parameter it returns nil; when
that URL carries a non-empty `error` query parameter it returns an error of
kind `openid_connect_error`. -/
theorem c8_logout (cnf : LogoutConfig) (b : LogoutBrowser) :
    (cnf.endpoint = "" →
      Logout cnf b = some (errNew .endpointMissed "OpenID Connect endpoint is missed"))
    ∧ (∀ url, cnf.endpoint ≠ "" → goURLParse cnf.endpoint = some url → cnf.idToken = "" →
      Logout cnf b = some (errNew .idTokenMissed "ID token is missed"))
    ∧ (∀ url lurl, cnf.endpoint ≠ "" → goURLParse cnf.endpoint = some url →
      cnf.idToken ≠ "" → b.connectErr = none → b.navHistoryErr = none →
      b.navigateErr = none → goURLParse b.lastNav = some lurl →
      queryGet lurl.rawQuery "error" = "" →
      Logout cnf b = none)
    ∧ (∀ url lurl, cnf.endpoint ≠ "" → goURLParse cnf.endpoint = some url →
      cnf.idToken ≠ "" → b.connectErr = none → b.navHistoryErr = none →
      b.navigateErr = none → goURLParse b.lastNav = some lurl →
      queryGet lurl.rawQuery "error" ≠ "" →
      ∃ m, Logout cnf b = some (errNew .oidcError m)) := by
  refine ⟨?_, ?_, ?_, ?_⟩
  · intro he; simp [Logout, he]
  · intro url he hp hi; simp [Logout, he, hp, hi]
  · intro url lurl he hp hi hc hn hg hl hq
    simp [Logout, he, hp, hi, hc, hn, hg, extractOIDCError, hl, hq]
  · intro url lurl he hp hi hc hn hg hl hq
    refine ⟨if queryGet lurl.rawQuery "error_hint" ≠ "" then
        queryGet lurl.rawQuery "error_description" ++ ": " ++ queryGet lurl.rawQuery "error_hint"
      else queryGet lurl.rawQuery "error_description", ?_⟩
    simp [Logout, he, hp, hi, hc, hn, hg, extractOIDCError, hl, hq]

/-- Witness for C8: a complete successful logout run returns nil. -/
theorem c8_logout_witness :
    Logout { endpoint := "http://idp", idToken := "tok" }
      { connectErr := none, navHistoryErr := none, navigateErr := none,
        lastNav := "http://idp/post-logout" } = none :=
  (c8_logout { endpoint := "http://idp", idToken := "tok" }
      { connectErr := none, navHistoryErr := none, navigateErr := none,
        lastNav := "http://idp/post-logout" }).2.2.1
    { scheme := "http", host := "idp" }
    { scheme := "http", host := "idp", path := "/post-logout" }
    (by decide) (by decide) (by decide) rfl rfl rfl (by decide) (by decide)

/-! ### Claim C2 -/

/-- Claim C2: when a login run reaches the post-submit classification
(`loginPreSubmit` returned nil) and the last navigation URL parses with a
non-empty fragment that parses as a query carrying a non-empty
`access_token` and a non-empty `id_token`, `Login` succeeds with exactly
that token pair; every `Login` success arises this way (the only success
exit); and a present fragment with a failed query parse or an empty or
absent token makes `Login` return an error — whatever the URL, the
configured redirect URI included. -/
theorem c2_login_token_extraction :
    (∀ (cnf : LoginConfig) (b : LoginBrowser) (url : GoURL) (A B : String),
      loginPreSubmit cnf b = none →
      goURLParse b.lastNavSubmit = some url →
      url.fragment ≠ "" →
      (goParseQuery url.fragment).2 = false →
      valuesGet (goParseQuery url.fragment).1 "access_token" = A → A ≠ "" →
      valuesGet (goParseQuery url.fragment).1 "id_token" = B → B ≠ "" →
      Login cnf b = .ok { accessToken := A, idToken := B })
    ∧ (∀ (cnf : LoginConfig) (b : LoginBrowser) (d : LoginData),
      Login cnf b = .ok d → extractOIDCTokens b.lastNavSubmit = .ok (some d))
    ∧ (∀ (cnf : LoginConfig) (b : LoginBrowser) (url : GoURL),
      loginPreSubmit cnf b = none →
      goURLParse b.lastNavSubmit = some url →
      url.fragment ≠ "" →
      ((goParseQuery url.fragment).2 = true
        ∨ valuesGet (goParseQuery url.fragment).1 "access_token" = ""
        ∨ valuesGet (goParseQuery url.fragment).1 "id_token" = "") →
      ∃ e, Login cnf b = .error e) := by
  refine ⟨?_, ?_, ?_⟩
  · intro cnf b url A B hpre hurl hfrag hq hA hAne hB hBne
    subst hA hB
    simp [Login, hpre, loginClassify, extractOIDCTokens, hurl, hfrag, hq, hAne, hBne]
  · intro cnf b d h
    rw [Login] at h
    cases hpre : loginPreSubmit cnf b with
    | some e => rw [hpre] at h; cases h
    | none =>
      rw [hpre] at h
      dsimp only at h
      rw [loginClassify] at h
      cases ht : extractOIDCTokens b.lastNavSubmit with
      | error e => rw [ht] at h; cases h
      | ok od =>
        cases od with
        | some ld =>
          rw [ht] at h
          dsimp only at h
          have hld : ld = d := by simpa using h
          subst hld
          rfl
        | none =>
          rw [ht] at h
          dsimp only at h
          cases ho : extractOIDCError b.lastNavSubmit with
          | some e => rw [ho] at h; cases h
          | none =>
            rw [ho] at h
            dsimp only at h
            cases htx : b.textOf cnf.errorMessage with
            | error e => rw [htx] at h; cases h
            | ok t =>
              rw [htx] at h
              dsimp only at h
              by_cases hte : t ≠ ""
              · rw [if_pos hte] at h; cases h
              · rw [if_neg hte] at h
                cases hep : b.errPageHTML with
                | error e => rw [hep] at h; cases h
                | ok content => rw [hep] at h; cases h
  · intro cnf b url hpre hurl hfrag hbad
    have hx : ∃ e0, extractOIDCTokens b.lastNavSubmit = .error e0 := by
      by_cases hq : (goParseQuery url.fragment).2 = true
      · exact ⟨wrapErr (GoError.external "query escape error")
            "parse the authentication callback\x27s fragment",
          by simp [extractOIDCTokens, hurl, hfrag, hq]⟩
      · rw [Bool.not_eq_true] at hq
        by_cases hA : valuesGet (goParseQuery url.fragment).1 "access_token" = ""
        · exact ⟨errNew .other
              "the authentication endpoint does not send an access token in the url\x27s fragment",
            by simp [extractOIDCTokens, hurl, hfrag, hq, hA]⟩
        · rcases hbad with hb | hb | hb
          · exact absurd hb (by simp [hq])
          · exact absurd hb hA
          · exact ⟨errNew .other
                "the authentication endpoint does not send an id token in the url\x27s fragment",
              by simp [extractOIDCTokens, hurl, hfrag, hq, hA, hb]⟩
    obtain ⟨e0, he0⟩ := hx
    exact ⟨wrapErr e0 "extract OpenID Connect tokens",
      by simp [Login, hpre, loginClassify, he0]⟩

/-- Witness for C2 on the happy-path redirect of the test suite. -/
theorem c2_login_token_extraction_witness :
    Login
      { endpoint := "http://idp", clientID := "test-client",
        redirectURI := "http://localhost:9000/auth-callback",
        scopes := "openid profile email", username := "foo", password := "bar",
        usernameField := "#user", passwordField := "#pass",
        submitButton := "#submit", errorMessage := "#error" }
      { connectErr := none, navHistoryErr := none, navigateErr := none,
        lastNavLogin := "http://idp/login",
        loginPageHTML := .ok "<html></html>",
        hasElem := fun _ => .ok true,
        sendKeysErr := fun _ => none,
        clickErr := none, waitErr := none,
        lastNavSubmit :=
          "http://localhost:3000#access_token=access_token_value&id_token=id_token_value",
        textOf := fun _ => .ok "",
        errPageHTML := .ok "<html></html>" }
      = .ok { accessToken := "access_token_value", idToken := "id_token_value" } :=
  c2_login_token_extraction.1 _ _
    { scheme := "http", host := "localhost:3000",
      fragment := "access_token=access_token_value&id_token=id_token_value" }
    "access_token_value" "id_token_value"
    (by decide) (by decide) (by decide) (by decide) (by decide) (by decide)
    (by decide) (by decide)

/-! ### Claim C3 -/

/-- Counterexample to C3 as stated: the claim requires the error-message
text to be non-empty after trimming for the login-error-with-text exit, with
the full-markup catch-all otherwise.  The code checks emptiness before
trimming: on a run whose error-message selector text is a single space and
whose rendered page is `<html>PAGE</html>`, `Login` returns a `login_error`
whose message is the empty string — not a message containing the page
markup as the claim requires for a whitespace-only (trimmed-empty) text. -/
theorem c3_counterexample :
    Login
      { endpoint := "http://idp", clientID := "test-client",
        redirectURI := "http://localhost:9000/auth-callback",
        scopes := "openid profile email", username := "foo", password := "bar",
        usernameField := "#user", passwordField := "#pass",
        submitButton := "#submit", errorMessage := "#error" }
      { connectErr := none, navHistoryErr := none, navigateErr := none,
        lastNavLogin := "http://idp/login",
        loginPageHTML := .ok "<html>PAGE</html>",
        hasElem := fun _ => .ok true,
        sendKeysErr := fun _ => none,
        clickErr := none, waitErr := none,
        lastNavSubmit := "http://idp/handle-auth",
        textOf := fun _ => .ok " ",
        errPageHTML := .ok "<html>PAGE</html>" }
      = .error (errNew .loginError "")
    ∧ ¬ (("<html>PAGE</html>" : String).data <:+: ("" : String).data) := by
  refine ⟨by decide, ?_⟩
  intro h
  have hl := h.length_le
  simp at hl

/-- Claim C3 (amended): after form submission the outcome is classified in
this order — token extraction from the last navigation URL, then OIDC-error
classification of that URL, then the error-message selector text, which, if
non-empty before trimming, yields a `login_error` whose message is exactly
the trimmed text (possibly empty); only when the selector text is exactly
empty does `Login` return a `login_error` whose message contains the full
rendered page markup. -/
theorem c3_classification_amended (cnf : LoginConfig) (b : LoginBrowser)
    (hpre : loginPreSubmit cnf b = none) :
    (∀ d, extractOIDCTokens b.lastNavSubmit = .ok (some d) → Login cnf b = .ok d)
    ∧ (∀ e, extractOIDCTokens b.lastNavSubmit = .ok none →
        extractOIDCError b.lastNavSubmit = some e → Login cnf b = .error e)
    ∧ (∀ t, extractOIDCTokens b.lastNavSubmit = .ok none →
        extractOIDCError b.lastNavSubmit = none →
        b.textOf cnf.errorMessage = .ok t → t ≠ "" →
        Login cnf b = .error (errNew .loginError (goTrimSpace t)))
    ∧ (∀ content, extractOIDCTokens b.lastNavSubmit = .ok none →
        extractOIDCError b.lastNavSubmit = none →
        b.textOf cnf.errorMessage = .ok "" →
        b.errPageHTML = .ok content →
        Login cnf b = .error (errNew .loginError
          ("unexpected error page " ++ goQuote b.lastNavSubmit ++ "\n" ++ content))
        ∧ content.data <:+:
            ("unexpected error page " ++ goQuote b.lastNavSubmit ++ "\n" ++ content).data) := by
  refine ⟨?_, ?_, ?_, ?_⟩
  · intro d ht
    simp [Login, hpre, loginClassify, ht]
  · intro e ht ho
    simp [Login, hpre, loginClassify, ht, ho]
  · intro t ht ho htx hte
    simp [Login, hpre, loginClassify, ht, ho, htx, hte]
  · intro content ht ho htx hep
    constructor
    · simp [Login, hpre, loginClassify, ht, ho, htx, hep]
    · refine ⟨("unexpected error page " ++ goQuote b.lastNavSubmit ++ "\n").data, [], ?_⟩
      simp

/-- Witness for C3 on the invalid-password run of the test suite: the
selector text `invalid password` is returned trimmed as the login-error
message. -/
theorem c3_classification_amended_witness :
    Login
      { endpoint := "http://idp", clientID := "test-client",
        redirectURI := "http://localhost:9000/auth-callback",
        scopes := "openid profile email", username := "foo", password := "bar",
        usernameField := "#user", passwordField := "#pass",
        submitButton := "#submit", errorMessage := "#error" }
      { connectErr := none, navHistoryErr := none, navigateErr := none,
        lastNavLogin := "http://idp/login",
        loginPageHTML := .ok "<html></html>",
        hasElem := fun _ => .ok true,
        sendKeysErr := fun _ => none,
        clickErr := none, waitErr := none,
        lastNavSubmit := "http://idp/handle-auth",
        textOf := fun _ => .ok "invalid password",
        errPageHTML := .ok "<html></html>" }
      = .error (errNew .loginError (goTrimSpace "invalid password")) :=
  (c3_classification_amended _ _ (by decide)).2.2.1 "invalid password"
    (by decide) (by decide) rfl (by decide)

end Tokget
